import Mathlib

/-!
Verification development for the rings-node core subset:
the trickle handshake over the wasm transport (`bns-core/src/transports/wasm.rs`),
the bounded event channel (`bns-core/src/channels/default.rs`,
`bns-core/src/types/channel.rs`), and the backend dispatcher
(`src/backend/mod.rs`).

The native WebRTC layer (RtcPeerConnection and friends), the network, JSON
parsing and message decryption are external collaborators; they are modelled
as oracles (records of functions) so that every control path of the embedded
code is driven by explicit data.
-/

namespace RingsNode

/-! ## Signing subsystem

Modelled from the spec: the signing module (`bns-core/src/signing.rs`,
`SigMsg`, `SecretKey`) is not part of the source excerpt; only its callers
are.  The spec describes it as: "a payload plus a signature and signer
identity"; "construction requires a secret key; verification requires only
the public identity embedded in the signature".  We model signatures
symbolically: a signature is the pair of the signer's public identity and
the signed payload, and verification checks that the signature binds the
envelope's claimed identity to the envelope's payload. -/

/-- Secret keys, symbolic.  The public identity (address) of key `k` is `k`
itself in this symbolic model; distinct keys have distinct identities. -/
abbrev SecretKey := Nat

/-- Modelled from the spec: the public identity derived from a secret key. -/
def address (k : SecretKey) : Nat := k

/-- Modelled from the spec: a symbolic signature over a payload of type `α`:
the signer's public identity together with the payload it signed. -/
structure Signature (α : Type) where
  signerId : Nat
  signed : α
deriving DecidableEq, Repr

/-- Modelled from the spec: producing a signature with secret key `k`. -/
def sign {α : Type} (k : SecretKey) (m : α) : Signature α := ⟨address k, m⟩

/-- Modelled from the spec: `SigMsg<T>` — `{ data, signer identity, signature }`. -/
structure SigMsg (α : Type) where
  data : α
  addr : Nat
  sig : Signature α
deriving DecidableEq, Repr

/-- Modelled from the spec: `SigMsg::new(data, key)` signs `data` with `key`
and records the signer's public identity. -/
def SigMsg.new {α : Type} (data : α) (key : SecretKey) : SigMsg α :=
  ⟨data, address key, sign key data⟩

/-- Modelled from the spec: `SigMsg::verify` checks that the signature was
made over this envelope's payload by the key whose identity the envelope
claims. -/
def SigMsg.verify {α : Type} [DecidableEq α] (m : SigMsg α) : Bool :=
  m.sig = ⟨m.addr, m.data⟩

/-! ## Trickle payload and encoded envelopes -/

/-- Embeds `TricklePayload { sdp, candidates }` (`transports/wasm.rs`). -/
structure TricklePayload where
  sdp : String
  candidates : List String
deriving DecidableEq, Repr

/-- The transmissible encoded form of a signed envelope.  `none` stands for
bytes that do not decode to a `SigMsg<TricklePayload>`. -/
abbrev Encoded := Option (SigMsg TricklePayload)

/-- Encoding a signed envelope (`resp.try_into()` in `get_handshake_info`). -/
def encodeSig (m : SigMsg TricklePayload) : Encoded := some m

/-- Decoding an envelope (`data.try_into()` in `register_remote_info`). -/
def decodeSig (e : Encoded) : Except String (SigMsg TricklePayload) :=
  match e with
  | some m => .ok m
  | none => .error "decode error"

/-! ## Native WebRTC layer (oracle)

`RtcPeerConnection` operations are asynchronous native calls that may fail;
each is modelled by a field of `NativeOracle` deciding its outcome.  The
observable state the claims talk about (local/remote description, the set of
added candidates) is `NativeState`. -/

/-- Outcomes of the native WebRTC calls made by `WasmTransport`. -/
structure NativeOracle where
  /-- does `RtcPeerConnection::new_with_configuration` succeed for this stun string -/
  createConnOk : String → Bool
  /-- result of `create_offer()` -/
  createOffer : Except Unit String
  /-- result of `create_answer()` -/
  createAnswer : Except Unit String
  /-- does `set_local_description(sdp)` succeed -/
  setLocalOk : String → Bool
  /-- does `set_remote_description(sdp)` succeed -/
  setRemoteOk : String → Bool
  /-- does `add_ice_candidate(candidate)` succeed -/
  addCandOk : String → Bool

/-- Observable state of the native peer connection. -/
structure NativeState where
  localDescription : Option String
  remoteDescription : Option String
  addedCandidates : List String
deriving DecidableEq, Repr

/-- Embeds `WasmTransport` (`transports/wasm.rs`): the fields the embedded
operations read and write.  `connection`/`channel` record presence of the
native handles; `pending_candidates` is the local candidate snapshot. -/
structure WasmTransport where
  connection : Option Unit
  pending_candidates : List String
  channel : Option Unit
deriving DecidableEq, Repr

/-- Embeds `IceTransport::new`: no connection, no channel, no pending candidates. -/
def WasmTransport.new : WasmTransport :=
  ⟨none, [], none⟩

/-- Embeds `WasmTransport::setup_channel`: creates the data channel only when a
connection exists; otherwise leaves the transport unchanged. -/
def setup_channel (t : WasmTransport) : WasmTransport :=
  match t.connection with
  | some _ => { t with channel := some () }
  | none => t

/-- Embeds `start(stun)`: builds the configuration, stores the result of native
connection creation (converted to an `Option` by `.ok()`), sets up the data
channel, and returns `Ok(())` unconditionally. -/
def start (o : NativeOracle) (t : WasmTransport) (stun : String) :
    Except String Unit × WasmTransport :=
  let t1 := { t with connection := if o.createConnOk stun then some () else none }
  (.ok (), setup_channel t1)

/-- Embeds `set_local_description(desc)`: fails with no connection; otherwise the
native call either applies the description or is rejected. -/
def set_local_description (o : NativeOracle) (t : WasmTransport)
    (st : NativeState) (desc : String) : Except String Unit × NativeState :=
  match t.connection with
  | some _ =>
      if o.setLocalOk desc then
        (.ok (), { st with localDescription := some desc })
      else
        (.error "Failed to set remote description", st)
  | none => (.error "Failed on getting connection", st)

/-- Embeds `set_remote_description(desc)`: fails with no connection; otherwise the
native call either applies the description or is rejected. -/
def set_remote_description (o : NativeOracle) (t : WasmTransport)
    (st : NativeState) (desc : String) : Except String Unit × NativeState :=
  match t.connection with
  | some _ =>
      if o.setRemoteOk desc then
        (.ok (), { st with remoteDescription := some desc })
      else
        (.error "Failed to set remote description", st)
  | none => (.error "Failed on getting connection", st)

/-- Embeds `add_ice_candidate(candidate)`: fails with no connection; otherwise the
native call either records the candidate or is rejected. -/
def add_ice_candidate (o : NativeOracle) (t : WasmTransport)
    (st : NativeState) (candidate : String) : Except String Unit × NativeState :=
  match t.connection with
  | some _ =>
      if o.addCandOk candidate then
        (.ok (), { st with addedCandidates := st.addedCandidates ++ [candidate] })
      else
        (.error "Failed to add ice candidate", st)
  | none => (.error "Failed on getting connection", st)

/-- Embeds `get_offer()`: asks the native connection for an offer and, on success,
immediately sets it as the local description. -/
def get_offer (o : NativeOracle) (t : WasmTransport) (st : NativeState) :
    Except String String × NativeState :=
  match t.connection with
  | some _ =>
      match o.createOffer with
      | .ok offer =>
          match set_local_description o t st offer with
          | (.ok _, st1) => (.ok offer, st1)
          | (.error e, st1) => (.error e, st1)
      | .error _ => (.error "cannot get offer", st)
  | none => (.error "cannot get connection", st)

/-- Embeds `get_answer()`: asks the native connection for an answer and, on success,
immediately sets it as the local description. -/
def get_answer (o : NativeOracle) (t : WasmTransport) (st : NativeState) :
    Except String String × NativeState :=
  match t.connection with
  | some _ =>
      match o.createAnswer with
      | .ok answer =>
          match set_local_description o t st answer with
          | (.ok _, st1) => (.ok answer, st1)
          | (.error e, st1) => (.error e, st1)
      | .error _ => (.error "Failed to get answer", st)
  | none => (.error "cannot get connection", st)

/-- Embeds `RtcSdpType`: the sdp kinds the wasm backend distinguishes. -/
inductive SdpType where
  | offer
  | pranswer
  | answer
  | rollback
deriving DecidableEq, Repr

/-- Embeds `get_handshake_info(key, kind)`: obtain the sdp for `kind` (offers and
answers only), snapshot the pending local candidates, build a
`TricklePayload`, sign it and encode it. -/
def get_handshake_info (o : NativeOracle) (t : WasmTransport) (st : NativeState)
    (key : SecretKey) (kind : SdpType) : Except String Encoded × NativeState :=
  match kind with
  | .answer =>
      match get_answer o t st with
      | (.ok sdp, st1) =>
          let data : TricklePayload := ⟨sdp, t.pending_candidates⟩
          (.ok (encodeSig (SigMsg.new data key)), st1)
      | (.error e, st1) => (.error e, st1)
  | .offer =>
      match get_offer o t st with
      | (.ok sdp, st1) =>
          let data : TricklePayload := ⟨sdp, t.pending_candidates⟩
          (.ok (encodeSig (SigMsg.new data key)), st1)
      | (.error e, st1) => (.error e, st1)
  | _ => (.error "unsupport sdp type", st)

/-- The candidate loop of `register_remote_info`: apply each candidate in
order, propagating the first failure (`?` in the `for` body). -/
def addCandidatesLoop (o : NativeOracle) (t : WasmTransport) :
    List String → NativeState → Except String Unit × NativeState
  | [], st => (.ok (), st)
  | c :: cs, st =>
      match add_ice_candidate o t st c with
      | (.ok _, st1) => addCandidatesLoop o t cs st1
      | (.error e, st1) => (.error e, st1)

/-- Embeds `register_remote_info(data)`: decode, verify the signature; only on
`Ok(true)` set the remote description and feed every candidate, in order,
to `add_ice_candidate`; any other verification outcome is a verification
error and nothing is applied. -/
def register_remote_info (o : NativeOracle) (t : WasmTransport)
    (st : NativeState) (data : Encoded) : Except String Unit × NativeState :=
  match decodeSig data with
  | .error e => (.error e, st)
  | .ok m =>
      if m.verify then
        match set_remote_description o t st m.data.sdp with
        | (.ok _, st1) => addCandidatesLoop o t m.data.candidates st1
        | (.error e, st1) => (.error e, st1)
      else
        (.error "failed on verify message sigature", st)

/-! ## Event channel (`types/channel.rs`, `channels/default.rs`)

`AcChannel` wraps an `async_channel` bounded queue and owns one `Sender` and
one `Receiver` handle for its whole lifetime; `sender()`/`receiver()` hand
out clones.  The queue semantics follow the contract of §4.1: `send`
suspends while the queue is full and fails only when every receiver has
been dropped; `recv` suspends while the queue is empty and fails only when
every sender has been dropped.  While an `AcChannel` value is alive its own
two handles are never dropped, so the handle counts are one plus the number
of live clones. -/

/-- Embeds `Event` (`types/channel.rs`). -/
inductive Event where
  | connectFailed
  | receiveMsg (msg : List Nat)
deriving DecidableEq, Repr

/-- The queue state observable by a live `AcChannel`: its own sender and
receiver handles plus any number of live clones handed out by `sender()`
and `receiver()`. -/
structure AcChannel where
  capacity : Nat
  queue : List Event
  /-- live clones of the sender handle (the channel's own is not counted) -/
  extraSenders : Nat
  /-- live clones of the receiver handle (the channel's own is not counted) -/
  extraReceivers : Nat
deriving DecidableEq, Repr

/-- Total live sender handles: the `AcChannel`'s own plus the clones. -/
def AcChannel.senderCount (c : AcChannel) : Nat := c.extraSenders + 1

/-- Total live receiver handles: the `AcChannel`'s own plus the clones. -/
def AcChannel.receiverCount (c : AcChannel) : Nat := c.extraReceivers + 1

/-- Embeds `Channel::new(buffer)`: an empty bounded queue with one sender and one
receiver handle. -/
def AcChannel.new (buffer : Nat) : AcChannel :=
  ⟨buffer, [], 0, 0⟩

/-- Outcome of one `send` call under the §4.1 contract. -/
inductive SendOutcome where
  | closedError
  | suspended
  | sent (c : AcChannel)
deriving DecidableEq, Repr

/-- Outcome of one `recv` call under the §4.1 contract. -/
inductive RecvOutcome where
  | closedError
  | suspended
  | received (e : Event) (c : AcChannel)
deriving DecidableEq, Repr

/-- Embeds `AcChannel::send(e)` = `self.sender.send(e).await`: fails only when all
receivers are dropped, suspends while the queue is full, otherwise
enqueues FIFO. -/
def AcChannel.send (c : AcChannel) (e : Event) : SendOutcome :=
  if c.receiverCount = 0 then .closedError
  else if c.capacity ≤ c.queue.length then .suspended
  else .sent { c with queue := c.queue ++ [e] }

/-- Embeds `AcChannel::recv()` = `self.receiver().recv().await`: takes the head of
the queue when one exists; on an empty queue it fails only when all senders
are dropped, and suspends otherwise. -/
def AcChannel.recv (c : AcChannel) : RecvOutcome :=
  match c.queue with
  | e :: rest => .received e { c with queue := rest }
  | [] => if c.senderCount = 0 then .closedError else .suspended

/-! ## Backend dispatcher (`src/backend/mod.rs`) -/

/-- Embeds `HttpServerRequest { method, path, headers, body }`. -/
structure HttpServerRequest where
  method : String
  path : String
  headers : List (String × String)
  body : Option (List Nat)
deriving DecidableEq, Repr

/-- Embeds `HttpServerResponse { status, headers, body }`. -/
structure HttpServerResponse where
  status : Nat
  headers : List (String × String)
  body : Option (List Nat)
deriving DecidableEq, Repr

/-- Embeds `HttpServerMessage`. -/
inductive HttpServerMessage where
  | request (r : HttpServerRequest)
  | response (r : HttpServerResponse)
deriving DecidableEq, Repr

/-- Embeds `BackendMessage`. -/
inductive BackendMessage where
  | httpServer (m : HttpServerMessage)
deriving DecidableEq, Repr

/-- Embeds `HttpServerConfig { port }`. -/
structure HttpServerConfig where
  port : Nat
deriving DecidableEq, Repr

/-- Embeds `HttpServer`: the reqwest client is stateless here; only the port is
observable. -/
structure HttpServer where
  port : Nat
deriving DecidableEq, Repr

/-- Embeds `HttpServer::new(config)`. -/
def HttpServer.new (config : HttpServerConfig) : HttpServer :=
  ⟨config.port⟩

/-- Embeds `BackendConfig { http_server }`. -/
structure BackendConfig where
  http_server : Option HttpServerConfig
deriving DecidableEq, Repr

/-- Embeds `Backend { http_server }`. -/
structure Backend where
  http_server : Option HttpServer
deriving DecidableEq, Repr

/-- Embeds `Backend::new(config)`. -/
def Backend.new (config : BackendConfig) : Backend :=
  ⟨config.http_server.map HttpServer.new⟩

/-- Embeds `http::Method`, restricted to the variants `try_into_method` produces. -/
inductive Method where
  | get
  | post
  | put
  | delete
  | head
  | options
  | trace
  | connect
  | patch
deriving DecidableEq, Repr

/-- Embeds the per-character step of `str::to_uppercase` (the full Unicode
uppercase mapping), restricted to the mappings whose output is pure ASCII:
the ASCII letters `a`-`z`, the two simple mappings into ASCII (U+0131
dotless i to `I`, U+017F long s to `S`) and the full mappings into ASCII
(U+00DF sharp s to `SS`, the Latin ligatures U+FB00-U+FB06).  Every other
character either has no uppercase mapping (and is returned unchanged, as
here) or uppercases to a string containing at least one non-ASCII
character; either way it can never make a string equal to one of the
all-ASCII method names `try_into_method` compares against, so keeping such
characters unchanged preserves the outcome of every comparison the program
performs on the result. -/
def char_to_uppercase (c : Char) : List Char :=
  if 'a' ≤ c ∧ c ≤ 'z' then [Char.ofNat (c.toNat - 32)]
  else if c = 'ı' then ['I']
  else if c = 'ſ' then ['S']
  else if c = 'ß' then ['S', 'S']
  else if c = 'ﬀ' then ['F', 'F']
  else if c = 'ﬁ' then ['F', 'I']
  else if c = 'ﬂ' then ['F', 'L']
  else if c = 'ﬃ' then ['F', 'F', 'I']
  else if c = 'ﬄ' then ['F', 'F', 'L']
  else if c = 'ﬅ' then ['S', 'T']
  else if c = 'ﬆ' then ['S', 'T']
  else [c]

/-- Embeds `str::to_uppercase`: concatenate the uppercase mapping of each
character. -/
def to_uppercase (s : String) : String := ⟨s.data.flatMap char_to_uppercase⟩

/-- The nine method names `try_into_method` accepts. -/
def methodNames : List String :=
  ["GET", "POST", "PUT", "DELETE", "HEAD", "OPTIONS", "TRACE", "CONNECT", "PATCH"]

/-- Embeds `try_into_method(s)`: uppercase the string, then accept exactly the nine
HTTP method names (the Rust `match` on `&str` is an equality chain). -/
def try_into_method (s : String) : Except String Method :=
  if to_uppercase s = "GET" then .ok .get
  else if to_uppercase s = "POST" then .ok .post
  else if to_uppercase s = "PUT" then .ok .put
  else if to_uppercase s = "DELETE" then .ok .delete
  else if to_uppercase s = "HEAD" then .ok .head
  else if to_uppercase s = "OPTIONS" then .ok .options
  else if to_uppercase s = "TRACE" then .ok .trace
  else if to_uppercase s = "CONNECT" then .ok .connect
  else if to_uppercase s = "PATCH" then .ok .patch
  else .error "Invalid HTTP method"

/-- Embeds `str::trim_start_matches` at `'/'`: remove every leading `'/'`. -/
def trim_start_slashes (s : String) : String :=
  ⟨s.data.dropWhile (· = '/')⟩

/-- A request as issued on the network by `HttpServer::execute`. -/
structure NetRequest where
  url : String
  method : Method
  headers : List (String × String)
  body : Option (List Nat)
deriving DecidableEq, Repr

/-- The external collaborators of `execute`: header parsing by the `http`
crate and the actual network exchange (send + body read), which may fail
with an error text. -/
structure NetOracle where
  validHeaderName : String → Bool
  validHeaderValue : String → Bool
  perform : NetRequest → Except String (Nat × List (String × String) × List Nat)

/-- The header loop of `execute`: `HeaderMap::insert` for each pair, failing
on the first invalid name or value; a later insert with the same name
replaces the earlier entry. -/
def buildHeaders (o : NetOracle) : List (String × String) →
    Except String (List (String × String))
  | [] => .ok []
  | (n, v) :: rest =>
      if o.validHeaderName n then
        if o.validHeaderValue v then
          match buildHeaders o rest with
          | .ok hs => .ok (if rest.any (fun p => p.1 = n) then hs else (n, v) :: hs)
          | .error e => .error e
        else .error ("Invalid header value: " ++ v)
      else .error ("Invalid header name: " ++ n)

/-- The string a `String` error renders to as bytes (`Bytes::from(e.to_string())`). -/
def strBytes (s : String) : List Nat := s.data.map Char.toNat

/-- Embeds `HttpServer::execute(request)`: build the url, convert the method,
parse the headers, then issue the request; the second component records the
network requests actually issued. -/
def HttpServer.execute (self : HttpServer) (o : NetOracle)
    (request : HttpServerRequest) :
    Except String HttpServerResponse × List NetRequest :=
  let url := "http://localhost:" ++ toString self.port ++ "/"
      ++ trim_start_slashes request.path
  match try_into_method request.method with
  | .error e => (.error e, [])
  | .ok method =>
      match buildHeaders o request.headers with
      | .error e => (.error e, [])
      | .ok headers =>
          let req : NetRequest := ⟨url, method, headers, request.body⟩
          match o.perform req with
          | .error e => (.error e, [req])
          | .ok (status, rheaders, rbody) =>
              (.ok ⟨status, rheaders, some rbody⟩, [req])

/-- External collaborators of `custom_message`: the outcome of
`handler.decrypt_msg(msg)` on the inbound payload (`none` = decryption
failed) and `serde_json::from_slice` (`none` = parse failed). -/
structure DispatchOracle where
  decrypted : Option (List Nat)
  parse : List Nat → Option BackendMessage
  net : NetOracle

/-- Embeds `Backend::custom_message`: the outbound messages produced for one
inbound relayed payload (each entry is the `BackendMessage` serialized,
encrypted and sent by `send_report_message`). -/
def custom_message (b : Backend) (o : DispatchOracle) : List BackendMessage :=
  match o.decrypted with
  | none => []
  | some raw_msg =>
      match o.parse raw_msg with
      | none => []
      | some (BackendMessage.httpServer msg) =>
          match msg with
          | .request req =>
              match b.http_server with
              | some server =>
                  let resp :=
                    match (server.execute o.net req).1 with
                    | .ok r => r
                    | .error e => ⟨500, [], some (strBytes e)⟩
                  [BackendMessage.httpServer (.response resp)]
              | none => []
          | .response _ => []

/-! ## Concrete fixtures used by the witnesses and counterexamples -/

/-- A native layer that rejects connection creation and accepts everything else. -/
def oracleReject : NativeOracle :=
  ⟨fun _ => false, .ok "offer-sdp", .ok "answer-sdp",
   fun _ => true, fun _ => true, fun _ => true⟩

/-- A native layer that accepts everything except the candidate `"bad"`. -/
def oracleOneBadCand : NativeOracle :=
  ⟨fun _ => true, .ok "offer-sdp", .ok "answer-sdp",
   fun _ => true, fun _ => true, fun c => c ≠ "bad"⟩

/-- A started transport: connection and data channel present. -/
def transportW : WasmTransport := ⟨some (), [], some ()⟩

/-- A fresh native state. -/
def stateW : NativeState := ⟨none, none, []⟩

/-- A handshake payload whose middle candidate is the rejected one. -/
def payloadW : TricklePayload := ⟨"v=0", ["a", "bad", "c"]⟩

/-- The payload `payloadW` signed with key 7: a well-formed envelope. -/
def envelopeGood : Encoded := encodeSig (SigMsg.new payloadW 7)

/-- An envelope claiming identity of key 7 but signed by key 9. -/
def envelopeForged : Encoded := some ⟨payloadW, address 7, sign 9 payloadW⟩

/-- A network on which every request fails. -/
def netOracleDown : NetOracle :=
  ⟨fun _ => true, fun _ => true, fun _ => .error "connection refused"⟩

/-- A plain GET request. -/
def requestW : HttpServerRequest := ⟨"GET", "//status", [], none⟩

/-- A backend with a configured local HTTP service. -/
def backendW : Backend := ⟨some ⟨8080⟩⟩

/-- A backend with no local HTTP service. -/
def backendNone : Backend := ⟨none⟩

/-- A dispatch context whose payload decrypts and parses to `requestW`. -/
def dispatchW : DispatchOracle :=
  ⟨some [1, 2], fun _ => some (.httpServer (.request requestW)), netOracleDown⟩

/-- A dispatch context whose payload fails decryption. -/
def dispatchNoise : DispatchOracle := ⟨none, fun _ => none, netOracleDown⟩

/-! ## Helper lemmas -/

/-- The candidate loop applies exactly the longest accepted prefix, in order,
and returns the first failure. -/
theorem addCandidatesLoop_spec (o : NativeOracle) (t : WasmTransport)
    (hconn : t.connection = some ()) (cs : List String) (st : NativeState) :
    (addCandidatesLoop o t cs st).2 =
      { st with addedCandidates := st.addedCandidates ++ cs.takeWhile o.addCandOk } ∧
    (addCandidatesLoop o t cs st).1 =
      (if cs.all o.addCandOk then .ok ()
       else .error "Failed to add ice candidate") := by
  induction cs generalizing st with
  | nil => simp [addCandidatesLoop]
  | cons c cs ih =>
      by_cases hc : o.addCandOk c = true
      · have h := ih { st with addedCandidates := st.addedCandidates ++ [c] }
        simp only [addCandidatesLoop, add_ice_candidate, hconn, hc, if_true,
          List.takeWhile_cons, List.all_cons, Bool.true_and] at *
        refine ⟨?_, h.2⟩
        rw [h.1]
        simp
      · simp [addCandidatesLoop, add_ice_candidate, hconn, hc,
          List.takeWhile_cons, List.all_cons]

/-- A method string whose uppercasing is not an accepted method name maps to
the invalid-method error. -/
theorem try_into_method_not_mem (s : String)
    (h : to_uppercase s ∉ methodNames) :
    try_into_method s = .error "Invalid HTTP method" := by
  unfold try_into_method
  unfold methodNames at h
  simp only [List.mem_cons, List.not_mem_nil, or_false] at h
  push_neg at h
  obtain ⟨h1, h2, h3, h4, h5, h6, h7, h8, h9⟩ := h
  simp [h1, h2, h3, h4, h5, h6, h7, h8, h9]

/-! ## Claim theorems -/

/-- C8: wrapping any `TricklePayload` in a signed envelope with secret key
`k` (as `get_handshake_info` does via `SigMsg::new`) verifies against `k`'s
public identity and yields the original payload unchanged, while an envelope
whose signature was produced by a key of a different identity fails
verification. -/
theorem sigMsg_roundtrip (p : TricklePayload) (k k' : SecretKey)
    (hk : address k' ≠ address k) :
    (SigMsg.new p k).verify = true ∧ (SigMsg.new p k).data = p ∧
    SigMsg.verify ⟨p, address k, sign k' p⟩ = false := by
  refine ⟨by simp [SigMsg.new, SigMsg.verify, sign], rfl, ?_⟩
  simp [SigMsg.verify, sign]
  intro h
  exact absurd h hk

/-- Witness for C8 at payload `payloadW`, keys 7 and 9. -/
theorem sigMsg_roundtrip_witness :
    (SigMsg.new payloadW 7).verify = true ∧
    (SigMsg.new payloadW 7).data = payloadW ∧
    SigMsg.verify ⟨payloadW, address 7, sign 9 payloadW⟩ = false :=
  sigMsg_roundtrip payloadW 7 9 (by decide)

/-- C1: an envelope that decodes but whose signature verification does not
return `Ok(true)` makes `register_remote_info` return an error and leaves
the native state untouched: the remote description is not set and no
candidate is added. -/
theorem register_remote_info_unverified (o : NativeOracle) (t : WasmTransport)
    (st : NativeState) (data : Encoded) (m : SigMsg TricklePayload)
    (hdec : decodeSig data = .ok m) (hver : m.verify = false) :
    (∃ e, (register_remote_info o t st data).1 = .error e) ∧
    (register_remote_info o t st data).2 = st := by
  unfold register_remote_info
  rw [hdec]
  simp [hver]

/-- Witness for C1: the forged envelope `envelopeForged` is rejected and the
fresh state survives unchanged. -/
theorem register_remote_info_unverified_witness :
    (∃ e, (register_remote_info oracleOneBadCand transportW stateW
        envelopeForged).1 = .error e) ∧
    (register_remote_info oracleOneBadCand transportW stateW
        envelopeForged).2 = stateW :=
  register_remote_info_unverified oracleOneBadCand transportW stateW
    envelopeForged ⟨payloadW, address 7, sign 9 payloadW⟩ rfl (by decide)

/-- C4: on a successfully verified payload (with a live connection whose
remote-description call succeeds), `register_remote_info` sets the payload's
sdp as the remote description, then adds exactly the longest prefix of the
payload's candidates accepted by `add_ice_candidate`, in payload order,
returning success iff every candidate is accepted and the
add-candidate error otherwise. -/
theorem register_remote_info_verified (o : NativeOracle) (t : WasmTransport)
    (st : NativeState) (data : Encoded) (m : SigMsg TricklePayload)
    (hconn : t.connection = some ())
    (hdec : decodeSig data = .ok m)
    (hver : m.verify = true)
    (hsdp : o.setRemoteOk m.data.sdp = true) :
    (register_remote_info o t st data).2 =
      { st with remoteDescription := some m.data.sdp,
                addedCandidates :=
                  st.addedCandidates ++ m.data.candidates.takeWhile o.addCandOk } ∧
    (register_remote_info o t st data).1 =
      (if m.data.candidates.all o.addCandOk then .ok ()
       else .error "Failed to add ice candidate") := by
  unfold register_remote_info
  rw [hdec]
  simp only [hver, if_true]
  have h := addCandidatesLoop_spec o t hconn m.data.candidates
    { st with remoteDescription := some m.data.sdp }
  simp only [set_remote_description, hconn, hsdp, if_true] at *
  exact h

/-- Witness for C4: the good envelope against the oracle rejecting candidate
`"bad"`: the remote description is set, only `["a"]` is added, and the call
fails with the add-candidate error. -/
theorem register_remote_info_verified_witness :
    (register_remote_info oracleOneBadCand transportW stateW envelopeGood).2 =
      { stateW with remoteDescription := some payloadW.sdp,
                    addedCandidates := stateW.addedCandidates ++
                      payloadW.candidates.takeWhile oracleOneBadCand.addCandOk } ∧
    (register_remote_info oracleOneBadCand transportW stateW envelopeGood).1 =
      (if payloadW.candidates.all oracleOneBadCand.addCandOk then .ok ()
       else .error "Failed to add ice candidate") :=
  register_remote_info_verified oracleOneBadCand transportW stateW
    envelopeGood (SigMsg.new payloadW 7) rfl rfl (by decide) rfl

/-- C7: `get_handshake_info` fails immediately for every sdp kind other than
`Offer` and `Answer`: the result is the unsupported-kind error, no envelope
is produced, and the native state is untouched. -/
theorem get_handshake_info_unsupported (o : NativeOracle) (t : WasmTransport)
    (st : NativeState) (key : SecretKey) (kind : SdpType)
    (h1 : kind ≠ SdpType.offer) (h2 : kind ≠ SdpType.answer) :
    (get_handshake_info o t st key kind).1 = .error "unsupport sdp type" ∧
    (get_handshake_info o t st key kind).2 = st := by
  cases kind <;> simp_all [get_handshake_info]

/-- Witness for C7 at kind `pranswer`. -/
theorem get_handshake_info_unsupported_witness :
    (get_handshake_info oracleOneBadCand transportW stateW 7
        SdpType.pranswer).1 = .error "unsupport sdp type" ∧
    (get_handshake_info oracleOneBadCand transportW stateW 7
        SdpType.pranswer).2 = stateW :=
  get_handshake_info_unsupported oracleOneBadCand transportW stateW 7
    SdpType.pranswer (by decide) (by decide)

/-- C3 counterexample: against a native layer that rejects connection
creation, `start` still returns `Ok(())` — the claim that it returns an
error is false. -/
theorem start_counterexample :
    oracleReject.createConnOk "stun:stun.l.google.com:19302" = false ∧
    (start oracleReject WasmTransport.new "stun:stun.l.google.com:19302").1 =
      .ok () := by
  exact ⟨rfl, rfl⟩

/-- C3 amended: `start` always returns success; when the native stack
rejects the configuration the connection is simply left unset, and the
failure surfaces only on later operations, which fail with the
no-connection error. -/
theorem start_amended (o : NativeOracle) (t : WasmTransport) (stun : String) :
    (start o t stun).1 = .ok () ∧
    (o.createConnOk stun = false →
      (start o t stun).2.connection = none ∧
      ∀ (st : NativeState) (c : String),
        (add_ice_candidate o (start o t stun).2 st c).1 =
          .error "Failed on getting connection") := by
  refine ⟨rfl, fun hrej => ?_⟩
  simp [start, setup_channel, add_ice_candidate, hrej]

/-- Witness for C3's amended claim at the rejecting oracle. -/
theorem start_amended_witness :
    (start oracleReject WasmTransport.new "stun:example.org:3478").1 = .ok () ∧
    (start oracleReject WasmTransport.new "stun:example.org:3478").2.connection
      = none :=
  ⟨(start_amended oracleReject WasmTransport.new "stun:example.org:3478").1,
   ((start_amended oracleReject WasmTransport.new "stun:example.org:3478").2
      rfl).1⟩

/-- C2: a decrypted, well-formed `HttpServer::Request` handled while a local
HTTP service is configured produces exactly one outbound message, always an
`HttpServer::Response`; when local execution fails the response has status
500 with the error text as its body, and when it succeeds the executed
response is sent. -/
theorem custom_message_request_answered (b : Backend) (o : DispatchOracle)
    (raw : List Nat) (req : HttpServerRequest) (srv : HttpServer)
    (hdec : o.decrypted = some raw)
    (hparse : o.parse raw = some (.httpServer (.request req)))
    (hsrv : b.http_server = some srv) :
    (custom_message b o).length = 1 ∧
    (∀ out ∈ custom_message b o,
      ∃ resp, out = BackendMessage.httpServer (.response resp)) ∧
    (∀ e, (srv.execute o.net req).1 = .error e →
      custom_message b o =
        [BackendMessage.httpServer (.response ⟨500, [], some (strBytes e)⟩)]) ∧
    (∀ r, (srv.execute o.net req).1 = .ok r →
      custom_message b o = [BackendMessage.httpServer (.response r)]) := by
  unfold custom_message
  rw [hdec]
  simp only [hparse, hsrv]
  cases hex : (srv.execute o.net req).1 with
  | error e =>
      refine ⟨by simp, by simp, fun e' he' => ?_, fun r hr => by simp_all⟩
      injection he' with h1
      subst h1
      simp
  | ok r =>
      refine ⟨by simp, by simp, fun e' he' => by simp_all, fun r' hr' => ?_⟩
      injection hr' with h1
      subst h1
      simp

/-- Witness for C2: the unreachable-service fixture yields the synthesized
500 response carrying the network error text. -/
theorem custom_message_request_answered_witness :
    custom_message backendW dispatchW =
      [BackendMessage.httpServer
        (.response ⟨500, [], some (strBytes "connection refused")⟩)] :=
  (custom_message_request_answered backendW dispatchW [1, 2] requestW
      ⟨8080⟩ rfl rfl rfl).2.2.1 "connection refused" rfl

/-- C5: an inbound relayed payload that fails decryption, or decrypts to
bytes that do not parse as a `BackendMessage`, produces zero outbound
messages. -/
theorem custom_message_drops_invalid (b : Backend) (o : DispatchOracle)
    (h : o.decrypted = none ∨
      ∃ raw, o.decrypted = some raw ∧ o.parse raw = none) :
    custom_message b o = [] := by
  unfold custom_message
  rcases h with h | ⟨raw, h1, h2⟩
  · rw [h]
  · rw [h1]
    simp [h2]

/-- Witness for C5: undecryptable noise produces no outbound message. -/
theorem custom_message_drops_invalid_witness :
    custom_message backendW dispatchNoise = [] :=
  custom_message_drops_invalid backendW dispatchNoise (Or.inl rfl)

/-- C6: a decrypted, well-formed `HttpServer::Request` handled while no
local HTTP service is configured produces no outbound message. -/
theorem custom_message_no_http_server (b : Backend) (o : DispatchOracle)
    (raw : List Nat) (req : HttpServerRequest)
    (hdec : o.decrypted = some raw)
    (hparse : o.parse raw = some (.httpServer (.request req)))
    (hsrv : b.http_server = none) :
    custom_message b o = [] := by
  unfold custom_message
  rw [hdec]
  simp [hparse, hsrv]

/-- Witness for C6: the request fixture against the backend with no
configured HTTP service. -/
theorem custom_message_no_http_server_witness :
    custom_message backendNone dispatchW = [] :=
  custom_message_no_http_server backendNone dispatchW [1, 2] requestW
    rfl rfl rfl

/-- C9: a live `AcChannel` always holds one sender and one receiver handle
of its queue, so its `send` never fails with the closed-channel error (it
suspends exactly when the queue is full) and its `recv` never fails with the
closed-channel error (it suspends exactly when the queue is empty). -/
theorem acChannel_live_never_closed (c : AcChannel) (e : Event) :
    c.send e ≠ .closedError ∧ c.recv ≠ .closedError ∧
    (c.send e = .suspended ↔ c.capacity ≤ c.queue.length) ∧
    (c.recv = .suspended ↔ c.queue = []) := by
  obtain ⟨cap, q, es, er⟩ := c
  cases q <;>
    simp [AcChannel.send, AcChannel.recv, AcChannel.senderCount,
      AcChannel.receiverCount] <;>
    split <;> simp_all

/-- Witness for C9 at a fresh channel of capacity 16. -/
theorem acChannel_live_never_closed_witness :
    (AcChannel.new 16).send Event.connectFailed ≠ .closedError ∧
    (AcChannel.new 16).recv ≠ .closedError ∧
    ((AcChannel.new 16).send Event.connectFailed = .suspended ↔
      (AcChannel.new 16).capacity ≤ (AcChannel.new 16).queue.length) ∧
    ((AcChannel.new 16).recv = .suspended ↔ (AcChannel.new 16).queue = []) :=
  acChannel_live_never_closed (AcChannel.new 16) Event.connectFailed

/-- C10: `try_into_method` accepts a method string exactly when its
uppercasing is one of the nine method names; a request whose method is not
accepted makes `execute` return the invalid-method error without issuing any
network request; and every network request `execute` issues has the url
`http://localhost:<port>/` followed by the request path with all leading
`/` removed. -/
theorem http_execute_contract (s : String) (o : NetOracle)
    (srv : HttpServer) (req : HttpServerRequest) :
    ((∃ m, try_into_method s = .ok m) ↔ to_uppercase s ∈ methodNames) ∧
    (to_uppercase req.method ∉ methodNames →
      srv.execute o req = (.error "Invalid HTTP method", [])) ∧
    (∀ r ∈ (srv.execute o req).2,
      r.url = "http://localhost:" ++ toString srv.port ++ "/"
        ++ trim_start_slashes req.path) := by
  refine ⟨?_, fun hbad => ?_, fun r hr => ?_⟩
  · unfold try_into_method methodNames
    split_ifs with h1 h2 h3 h4 h5 h6 h7 h8 h9 <;> simp_all
  · have h := try_into_method_not_mem req.method hbad
    unfold HttpServer.execute
    rw [h]
  · unfold HttpServer.execute at hr
    cases htm : try_into_method req.method with
    | error e => rw [htm] at hr; simp at hr
    | ok m =>
        rw [htm] at hr
        cases hbh : buildHeaders o req.headers with
        | error e => rw [hbh] at hr; simp at hr
        | ok hs =>
            rw [hbh] at hr
            simp only at hr
            split at hr <;> simp_all

/-- Witness for C10: a request with method `"BREW"` is rejected with the
invalid-method error and no network request, while the method string
`"optıons"` (U+0131 dotless i, whose Unicode uppercasing is `OPTIONS`) is
accepted. -/
theorem http_execute_contract_witness :
    HttpServer.execute ⟨8080⟩ netOracleDown ⟨"BREW", "/x", [], none⟩ =
      (.error "Invalid HTTP method", []) ∧
    (∃ m, try_into_method "optıons" = .ok m) :=
  ⟨(http_execute_contract "BREW" netOracleDown ⟨8080⟩
      ⟨"BREW", "/x", [], none⟩).2.1 (by decide),
   (http_execute_contract "optıons" netOracleDown ⟨8080⟩
      ⟨"optıons", "/x", [], none⟩).1.mpr (by decide)⟩

end RingsNode
